import Mathlib

/-!
Verification of the Study-Agent solver core.

This file shallowly embeds the question-solving core of the repository:
`study_agent/tools/solver.py` (response parsing, reasoning truncation,
request building, the `solve_question` tool), `study_agent/llm_factory.py`
(the provider-keyed model-client factory) and `study_agent/config.py`
(the environment-derived configuration resolver).  External collaborators
(the screenshot-capable browser session and the solver model client) are
passed in as explicit function/`Except` parameters, following the
interface boundaries of the design.
-/

/-! ## Python string primitives

The source manipulates Python `str` values with `in`, `split(marker, 1)`,
`strip()`, slicing `s[:n]` and `len`.  We embed them on `List Char`,
matching Python's code-point semantics. -/

/-- The test `listStarts m s` is true when `m` is an initial segment of `s`. -/
def listStarts : List Char → List Char → Bool
  | [], _ => true
  | _ :: _, [] => false
  | a :: ms, b :: ss => a = b && listStarts ms ss

/-- Split at the first occurrence of `m`: `some (before, after)` when `m`
occurs in `s`, `none` otherwise.  Mirrors Python `s.split(m, 1)`. -/
def chSplitFirst (m : List Char) : List Char → Option (List Char × List Char)
  | [] => if m = [] then some ([], []) else none
  | c :: rest =>
    if listStarts m (c :: rest) then some ([], (c :: rest).drop m.length)
    else
      match chSplitFirst m rest with
      | some (pre, post) => some (c :: pre, post)
      | none => none

/-- Python `m in s` on strings. -/
def strContains (m s : String) : Bool :=
  (chSplitFirst m.data s.data).isSome

/-- Python `s.split(m, 1)` restricted to the two indexings the source uses:
`[0]` is the first component, `[-1]` (or `[1]` when the marker is present)
the second.  When the marker is absent Python returns `[s]`, so both `[0]`
and `[-1]` are `s` itself: we return `(s, s)` in that case. -/
def pySplitOnce (m s : String) : String × String :=
  match chSplitFirst m.data s.data with
  | some (a, b) => (⟨a⟩, ⟨b⟩)
  | none => (s, s)

/-- Python's whitespace set for `str.strip()` (ASCII portion). -/
def pyWhite (c : Char) : Bool :=
  c = ' ' || c = '\t' || c = '\n' || c = '\r' || c = '\x0b' || c = '\x0c'

/-- Python `s.strip()`. -/
def pyStrip (s : String) : String :=
  ⟨((s.data.dropWhile pyWhite).reverse.dropWhile pyWhite).reverse⟩

/-- Python slicing `s[:n]`. -/
def pyTake (n : Nat) (s : String) : String :=
  ⟨s.data.take n⟩

/-- Python `s.lower()` (the ASCII case mapping, which covers every value
the configuration layer lowercases). -/
def pyLower (s : String) : String :=
  ⟨s.data.map Char.toLower⟩

/-! ## Solver response parsing and reasoning truncation
(`study_agent/tools/solver.py`, `parse_solver_response` and
`truncate_reasoning`). -/

/-- Function `parse_solver_response` from `study_agent/tools/solver.py`: extract the
ANSWER and REASONING sections of the solver's raw completion text. -/
def parse_solver_response (answer_text : String) : String × String :=
  if strContains "ANSWER:" answer_text then
    let after_answer := (pySplitOnce "ANSWER:" answer_text).2
    if strContains "REASONING:" after_answer then
      (pyStrip (pySplitOnce "REASONING:" after_answer).1,
       pyStrip (pySplitOnce "REASONING:" after_answer).2)
    else (pyStrip after_answer, "")
  else (answer_text, "")

/-- The per-question-type reasoning ceiling: the `limits` dictionary of
`truncate_reasoning` together with its `.get(question_type, 500)` default. -/
def limitFor (question_type : String) : Nat :=
  if question_type = "choice" then 200
  else if question_type = "judge" then 150
  else if question_type = "fill" then 300
  else if question_type = "essay" then 1500
  else if question_type = "auto" then 500
  else 500

/-- The fixed truncation marker appended by `truncate_reasoning`. -/
def truncationMarker : String := "...(推理已截断)"

/-- Function `truncate_reasoning` from `study_agent/tools/solver.py`. -/
def truncate_reasoning (reasoning : String) (question_type : String) : String :=
  let max_len := limitFor question_type
  if reasoning.length ≤ max_len then reasoning
  else pyTake max_len reasoning ++ truncationMarker

/-! ## The solve_question tool (`study_agent/tools/solver.py`)

The tool's external collaborators are passed explicitly:
the browser session's screenshot capability as an
`Except String (Nat × String)` (error message, or byte count paired with
the base64 text of the captured image — the library base64 encoding of the
raw bytes is folded into the collaborator's result), and the solver model
client as a function from the built messages to an `Except`-valued
completion (`ainvoke` may fail; this core applies no retry). -/

/-- Parameter model of the `solve_question` tool (`SolveQuestionParams`). -/
structure SolveQuestionParams where
  question : String
  question_type : String := "auto"
  answer_format_hint : String := ""
  include_screenshot : Bool := false
deriving Repr, DecidableEq

/-- One part of a multimodal user message (`ContentPartTextParam` /
`ContentPartImageParam` with its `ImageURL`). -/
inductive ContentPart where
  | textPart (text : String)
  | imagePart (url : String) (media_type : String) (detail : String)
deriving Repr, DecidableEq

/-- Content of a user message: Python passes either a plain string or a
list of content parts. -/
inductive UserContent where
  | plain (text : String)
  | multi (parts : List ContentPart)
deriving Repr, DecidableEq

/-- A role-tagged chat message (`SystemMessage` / `UserMessage`). -/
inductive Message where
  | system (content : String)
  | user (content : UserContent)
deriving Repr, DecidableEq

/-- The `ActionResult` fields the tool populates. -/
structure ActionResult where
  extracted_content : String
  long_term_memory : String
deriving Repr, DecidableEq

/-- Observable outcome of one `solve_question` invocation: the returned
`ActionResult`, the messages sent to the solver model client, and the log
lines emitted along the way. -/
structure SolveOutput where
  result : ActionResult
  sentMessages : List Message
  logs : List String
deriving Repr, DecidableEq

/-- Modelled from the spec: `SOLVER_SYSTEM_PROMPT` lives in
`study_agent/prompts.py`, which is not among the provided sources.  Per the
design it is the fixed solver persona: answer-format rules per question
type and the strict two-section `ANSWER:` / `REASONING:` output format.
Its exact text is irrelevant to every property proved here; it enters the
messages as an opaque fixed string. -/
def SOLVER_SYSTEM_PROMPT : String :=
  "你是一个解题专家。必须严格按以下格式输出，ANSWER 在前，REASONING 在后：\nANSWER:\nREASONING:"

/-- The type-hint line of the user text: `type_hint` in `solve_question`,
including the `type_map.get(params.question_type, '')` default. -/
def type_hint_of (question_type : String) : String :=
  if question_type = "auto" then ""
  else
    "\n\n提示：" ++
      (if question_type = "choice" then "这是一道选择题"
       else if question_type = "fill" then "这是一道填空题"
       else if question_type = "judge" then "这是一道判断题"
       else if question_type = "essay" then "这是一道简答题/论述题"
       else "")

/-- The format-hint line of the user text: `format_hint` in
`solve_question` (Python truthiness of `params.answer_format_hint` is
non-emptiness). -/
def format_hint_of (answer_format_hint question_type : String) : String :=
  if answer_format_hint ≠ "" then "\n\n答案格式要求：" ++ answer_format_hint
  else if question_type = "fill" then
    "\n\n答案格式要求：请优先使用小数形式（保留两位小数），不要使用 LaTeX 或特殊符号。"
  else ""

/-- The full `user_text` built by `solve_question`. -/
def build_user_text (p : SolveQuestionParams) : String :=
  "请解答以下题目：\n\n" ++ p.question ++ type_hint_of p.question_type
    ++ format_hint_of p.answer_format_hint p.question_type

/-- The screenshot step of `solve_question`: on `include_screenshot`,
attempt the capture; a failure is logged and degrades to no screenshot.
Returns the optional base64 text and the log lines emitted. -/
def screenshot_step (p : SolveQuestionParams)
    (takeShot : Except String (Nat × String)) : Option String × List String :=
  if p.include_screenshot then
    match takeShot with
    | .ok (nbytes, b64) =>
      (some b64, ["📸 已捕获页面截图（" ++ toString nbytes ++ " bytes），将发送给 Solver"])
    | .error e => (none, ["⚠️ 截图失败，将仅使用文本解题：" ++ e])
  else (none, [])

/-- Building the user message: multimodal when a (truthy, i.e. non-empty)
base64 screenshot is available, plain text otherwise.  Returns the message
and the log lines emitted. -/
def user_message_of (user_text : String) (screenshot_b64 : Option String) :
    Message × List String :=
  match screenshot_b64 with
  | some b64 =>
    if b64 = "" then (.user (.plain user_text), [])
    else
      (.user (.multi
        [ .textPart user_text,
          .textPart "\n以下是题目所在页面的截图，请结合截图中的视觉信息（图表、图形、公式等）进行解题：",
          .imagePart ("data:image/png;base64," ++ b64) "image/png" "high" ]),
       ["🖼️ 使用多模态消息（文本+截图）调用 Solver"])
  | none => (.user (.plain user_text), [])

/-- The `ANSWER:`/`REASONING:` result block assembled by `solve_question`
(`result_content`); the REASONING section is appended only when the
truncated reasoning is non-empty (Python truthiness). -/
def result_content_of (answer_part truncated_reasoning : String) : String :=
  "ANSWER: " ++ answer_part ++
    (if truncated_reasoning = "" then ""
     else "\n\nREASONING: " ++ truncated_reasoning)

/-- The `solve_question` tool from `study_agent/tools/solver.py`:
optional screenshot, prompt assembly, one solver invocation, response
parsing, reasoning truncation, result assembly.  A solver-client failure
propagates; the code contains no other failure path. -/
def solve_question (p : SolveQuestionParams)
    (takeShot : Except String (Nat × String))
    (solver : List Message → Except String String) :
    Except String SolveOutput :=
  let log0 := "🧠 Solver 收到题目：" ++ pyTake 80 p.question ++ "..."
  let shot := screenshot_step p takeShot
  let um := user_message_of (build_user_text p) shot.1
  let messages := [Message.system SOLVER_SYSTEM_PROMPT, um.1]
  match solver messages with
  | .error e => .error e
  | .ok answer_text =>
    let parsed := parse_solver_response answer_text
    let truncated := truncate_reasoning parsed.2 p.question_type
    .ok
      { result :=
          { extracted_content := "题目答案：\n" ++ result_content_of parsed.1 truncated,
            long_term_memory :=
              "题目：" ++ pyTake 100 p.question ++ "... → 答案：" ++ parsed.1 },
        sentMessages := messages,
        logs := [log0] ++ shot.2 ++ um.2 ++
          ["✅ Solver 返回答案 (" ++ toString answer_text.length ++ " 字符)",
           "✅ 解析答案：" ++ parsed.1] }

/-- Returns `true` exactly on the success constructor. -/
def exceptOk {ε α : Type} : Except ε α → Bool
  | .ok _ => true
  | .error _ => false

/-! ## Configuration resolver (`study_agent/config.py`) and model client
factory (`study_agent/llm_factory.py`)

The process environment is passed explicitly as a lookup function
`Env : String → Option String` (`os.getenv`). -/

/-- The process environment: `os.getenv` as a lookup. -/
def Env : Type := String → Option String

/-- Python `os.getenv(key, default)`. -/
def getenvD (env : Env) (key dflt : String) : String :=
  (env key).getD dflt

/-- Python `a or b` on an optional string and a string: Python truthiness
treats both `None` and `""` as falsy. -/
def pyOrStr (a : Option String) (b : String) : String :=
  match a with
  | some s => if s = "" then b else s
  | none => b

/-- Python `a or b` on two optional strings. -/
def pyOrOptStr (a b : Option String) : Option String :=
  match a with
  | some s => if s = "" then b else some s
  | none => b

/-- Dataclass `LLMConfig` from `study_agent/config.py`. -/
structure LLMConfig where
  provider : String
  model : Option String := none
  base_url : Option String := none
  max_completion_tokens : Option Nat := none
deriving Repr, DecidableEq

/-- Dataclass `BrowserConfig` from `study_agent/config.py` (the wait times are exact
decimal constants; we carry them as rationals). -/
structure BrowserConfig where
  cdp_url : String := "http://localhost:9222"
  minimum_wait_page_load_time : ℚ := 1/2
  wait_for_network_idle_page_load_time : ℚ := 1
  wait_between_actions : ℚ := 3/10
deriving Repr, DecidableEq

/-- Dataclass `AgentConfig` from `study_agent/config.py`. -/
structure AgentConfig where
  use_vision : Bool := true
  use_thinking : Bool := true
  max_actions_per_step : Nat := 3
  max_failures : Nat := 5
  max_steps : Nat := 200
  enable_planning : Bool := true
  use_judge : Bool := true
  demo_mode : Bool := true
deriving Repr, DecidableEq

/-- Dataclass `AppConfig` from `study_agent/config.py`. -/
structure AppConfig where
  browser_llm : LLMConfig := { provider := "openai" }
  solver_llm : LLMConfig := { provider := "openai" }
  browser : BrowserConfig := {}
  agent : AgentConfig := {}
  task_description : String := ""
deriving Repr, DecidableEq

/-- Function `load_config` from `study_agent/config.py`: resolve both roles'
provider/model/base-URL from the environment; the solver role gets a
default `max_completion_tokens` of 16384 exactly when its provider is
`openai`. -/
def load_config (env : Env) : AppConfig :=
  let default_provider := pyLower (getenvD env "DEFAULT_PROVIDER" "openai")
  let b_provider := pyLower (getenvD env "BROWSER_PROVIDER" default_provider)
  let b_model := env "BROWSER_MODEL"
  let b_base_url := env "BROWSER_BASE_URL"
  let s_provider := pyLower (getenvD env "SOLVER_PROVIDER" default_provider)
  let s_model := env "SOLVER_MODEL"
  let s_base_url := env "SOLVER_BASE_URL"
  let s_max_tokens : Option Nat := if s_provider = "openai" then some 16384 else none
  let cdp_url := getenvD env "CDP_URL" "http://localhost:9222"
  { browser_llm := { provider := b_provider, model := b_model, base_url := b_base_url },
    solver_llm :=
      { provider := s_provider, model := s_model, base_url := s_base_url,
        max_completion_tokens := s_max_tokens },
    browser := { cdp_url := cdp_url } }

/-- A constructed model client: the three `browser_use` chat-client
variants with the constructor arguments the factory passes them
(arguments the factory leaves unset keep the library defaults recorded
here). -/
inductive LLMClient where
  | chatOpenAI (model : String) (base_url : Option String)
      (max_completion_tokens : Option Nat)
      (dont_force_structured_output : Bool) (add_schema_to_system_prompt : Bool)
  | chatAnthropic (model : String)
  | chatGoogle (model : String)
deriving Repr, DecidableEq

/-- Function `_create_openai_llm` from `study_agent/llm_factory.py`. -/
def _create_openai_llm (config : LLMConfig) (env : Env) : LLMClient :=
  let model := pyOrStr config.model (getenvD env "OPENAI_MODEL" "gpt-4o")
  let base_url := pyOrOptStr config.base_url (env "OPENAI_BASE_URL")
  let base_url_kw : Option String :=
    match base_url with
    | some s => if s = "" then none else some s
    | none => none
  let no_structured :=
    (["true", "1", "yes"] : List String).contains
      (pyLower (getenvD env "OPENAI_NO_STRUCTURED_OUTPUT" "false"))
  .chatOpenAI model base_url_kw config.max_completion_tokens no_structured no_structured

/-- Function `_create_anthropic_llm` from `study_agent/llm_factory.py`. -/
def _create_anthropic_llm (config : LLMConfig) (env : Env) : LLMClient :=
  .chatAnthropic (pyOrStr config.model (getenvD env "ANTHROPIC_MODEL" "claude-sonnet-4-20250514"))

/-- Function `_create_google_llm` from `study_agent/llm_factory.py`. -/
def _create_google_llm (config : LLMConfig) (env : Env) : LLMClient :=
  .chatGoogle (pyOrStr config.model (getenvD env "GOOGLE_MODEL" "gemini-2.0-flash"))

/-- Function `create_llm` from `study_agent/llm_factory.py`: the
dictionary-of-constructors dispatch `_FACTORY_MAP.get(config.provider)`,
raising `ValueError` (modelled as the `Except.error` message) on an
unknown provider. -/
def create_llm (config : LLMConfig) (env : Env) : Except String LLMClient :=
  if config.provider = "openai" then .ok (_create_openai_llm config env)
  else if config.provider = "anthropic" then .ok (_create_anthropic_llm config env)
  else if config.provider = "google" then .ok (_create_google_llm config env)
  else .error ("不支持的 Provider: " ++ config.provider)

/-- A concrete environment in which only `SOLVER_PROVIDER` is set, to
`anthropic`. -/
def anthropicSolverEnv : Env :=
  fun key => if key = "SOLVER_PROVIDER" then some "anthropic" else none

/-! ## Theorems -/

/-- C3 (amended): when the literal marker `ANSWER:` does not occur in the
input, `parse_solver_response` returns the raw text **unchanged** (not
trimmed — the claim's "trimmed raw text" is refuted by the counterexample
below) as the answer, with empty reasoning; as a total Lean function it
never fails on any input string. -/
theorem parse_no_marker_returns_raw (s : String)
    (h : strContains "ANSWER:" s = false) :
    parse_solver_response s = (s, "") := by
  unfold parse_solver_response
  simp [h]

/-- Witness for `parse_no_marker_returns_raw` at a concrete marker-free
input. -/
theorem parse_no_marker_returns_raw_witness :
    strContains "ANSWER:" "hello world" = false ∧
      parse_solver_response "hello world" = ("hello world", "") :=
  ⟨by decide, parse_no_marker_returns_raw "hello world" (by decide)⟩

/-- C3 counterexample: on the marker-free input `"  42  "` the parser
returns the raw text with its surrounding whitespace intact, which differs
from the trimmed raw text the claim promises. -/
theorem parse_no_marker_not_trimmed :
    strContains "ANSWER:" "  42  " = false
    ∧ parse_solver_response "  42  " = ("  42  ", "")
    ∧ (parse_solver_response "  42  ").1 ≠ pyStrip "  42  " := by
  refine ⟨by decide, by decide, by decide⟩

/-- C4: for every question type `T` the reasoning ceiling is
choice→200, judge→150, fill→300, essay→1500, auto or anything else→500;
when the reasoning exceeds the ceiling, `truncate_reasoning` returns
exactly the first `C(T)` characters followed by the fixed truncation
marker (hence has length `C(T) + len(marker)` and starts with `R[:C(T)]`);
when it does not exceed the ceiling, the reasoning is returned unchanged. -/
theorem truncate_reasoning_ceiling (R T : String) :
    (limitFor T < R.length →
      truncate_reasoning R T = pyTake (limitFor T) R ++ truncationMarker
      ∧ (truncate_reasoning R T).length = limitFor T + truncationMarker.length)
    ∧ (R.length ≤ limitFor T → truncate_reasoning R T = R)
    ∧ limitFor "choice" = 200 ∧ limitFor "judge" = 150 ∧ limitFor "fill" = 300
    ∧ limitFor "essay" = 1500 ∧ limitFor "auto" = 500
    ∧ (T ≠ "choice" → T ≠ "judge" → T ≠ "fill" → T ≠ "essay" → limitFor T = 500) := by
  refine ⟨?_, ?_, by decide, by decide, by decide, by decide, by decide, ?_⟩
  · intro h
    have hnot : ¬ R.length ≤ limitFor T := by omega
    constructor
    · unfold truncate_reasoning
      rw [if_neg hnot]
    · unfold truncate_reasoning
      rw [if_neg hnot, String.length_append]
      have hd : R.length = R.data.length := rfl
      have ht : (pyTake (limitFor T) R).length = limitFor T := by
        simp only [pyTake, String.length, List.length_take]
        omega
      rw [ht]
  · intro h
    unfold truncate_reasoning
    rw [if_pos h]
  · intro h1 h2 h3 h4
    simp [limitFor, h1, h2, h3, h4]

set_option maxRecDepth 4000

/-- Witness for `truncate_reasoning_ceiling`: a 151-character reasoning
under type `judge` (ceiling 150) is truncated to its first 150 characters
plus the marker; a short reasoning is returned unchanged; an unknown type
gets ceiling 500. -/
theorem truncate_reasoning_ceiling_witness :
    truncate_reasoning (String.mk (List.replicate 151 'a')) "judge"
      = pyTake 150 (String.mk (List.replicate 151 'a')) ++ truncationMarker
    ∧ truncate_reasoning "ok" "judge" = "ok"
    ∧ limitFor "weird" = 500 :=
  ⟨((truncate_reasoning_ceiling (String.mk (List.replicate 151 'a')) "judge").1
      (by decide)).1,
   (truncate_reasoning_ceiling "ok" "judge").2.1 (by decide),
   (truncate_reasoning_ceiling "ok" "weird").2.2.2.2.2.2.2
     (by decide) (by decide) (by decide) (by decide)⟩

/-- C6: format-hint precedence in the built user message.  A non-empty
`answer_format_hint` yields exactly the hint line carrying that hint (the
default line is not emitted); with an empty hint and `question_type =
"fill"` the fixed decimal-rounding default line is emitted; otherwise no
format-hint line appears.  The built user text is the question followed by
the type-hint segment and exactly this format-hint segment. -/
theorem format_hint_precedence (hint qt : String) :
    (hint ≠ "" → format_hint_of hint qt = "\n\n答案格式要求：" ++ hint)
    ∧ (hint = "" → qt = "fill" →
        format_hint_of hint qt =
          "\n\n答案格式要求：请优先使用小数形式（保留两位小数），不要使用 LaTeX 或特殊符号。")
    ∧ (hint = "" → qt ≠ "fill" → format_hint_of hint qt = "")
    ∧ ∀ q scr, build_user_text ⟨q, qt, hint, scr⟩
        = "请解答以下题目：\n\n" ++ q ++ type_hint_of qt ++ format_hint_of hint qt := by
  refine ⟨?_, ?_, ?_, ?_⟩
  · intro h
    simp [format_hint_of, h]
  · intro h1 h2
    simp [format_hint_of, h1, h2]
  · intro h1 h2
    simp [format_hint_of, h1, h2]
  · intro q scr
    rfl

/-- Witness for `format_hint_precedence` at the three concrete cases. -/
theorem format_hint_precedence_witness :
    format_hint_of "as a fraction" "choice" = "\n\n答案格式要求：" ++ "as a fraction"
    ∧ format_hint_of "" "fill" =
        "\n\n答案格式要求：请优先使用小数形式（保留两位小数），不要使用 LaTeX 或特殊符号。"
    ∧ format_hint_of "" "choice" = "" :=
  ⟨(format_hint_precedence "as a fraction" "choice").1 (by decide),
   (format_hint_precedence "" "fill").2.1 rfl rfl,
   (format_hint_precedence "" "choice").2.2.1 rfl (by decide)⟩

/-- C10: `question_type` is an unvalidated free string.  For any value
that is neither `auto` nor one of choice/fill/judge/essay, the type-hint
line of the user text is the bare hint head `\n\n提示：` with empty
clarification, the reasoning ceiling falls back to 500, and the tool still
completes successfully (with a successful solver) for every question,
format hint, screenshot flag and screenshot outcome. -/
theorem free_question_type (qt : String)
    (h1 : qt ≠ "auto") (h2 : qt ≠ "choice") (h3 : qt ≠ "fill")
    (h4 : qt ≠ "judge") (h5 : qt ≠ "essay") :
    type_hint_of qt = "\n\n提示："
    ∧ limitFor qt = 500
    ∧ ∀ q hint scr takeShot s,
        exceptOk (solve_question ⟨q, qt, hint, scr⟩ takeShot (fun _ => .ok s)) = true := by
  refine ⟨?_, ?_, ?_⟩
  · simp only [type_hint_of, if_neg h1, if_neg h2, if_neg h3, if_neg h4, if_neg h5]
    decide
  · simp only [limitFor, if_neg h2, if_neg h4, if_neg h3, if_neg h5, if_neg h1]
  · intro q hint scr takeShot s
    rfl

/-- Witness for `free_question_type` at the unknown type `"multi"`. -/
theorem free_question_type_witness :
    type_hint_of "multi" = "\n\n提示："
    ∧ limitFor "multi" = 500
    ∧ exceptOk (solve_question ⟨"q", "multi", "", false⟩ (.error "e")
        (fun _ => .ok "ANSWER: A")) = true := by
  have h := free_question_type "multi" (by decide) (by decide) (by decide)
    (by decide) (by decide)
  exact ⟨h.1, h.2.1, h.2.2 "q" "" false (.error "e") "ANSWER: A"⟩

/-- C8: on a provider outside {openai, anthropic, google} the factory
returns the configuration error naming the unsupported provider, and no
client value is constructed (no `ok` result exists). -/
theorem create_llm_unknown_provider (config : LLMConfig) (env : Env)
    (h1 : config.provider ≠ "openai") (h2 : config.provider ≠ "anthropic")
    (h3 : config.provider ≠ "google") :
    create_llm config env = .error ("不支持的 Provider: " ++ config.provider)
    ∧ ∀ c : LLMClient, create_llm config env ≠ .ok c := by
  have he : create_llm config env = .error ("不支持的 Provider: " ++ config.provider) := by
    simp [create_llm, h1, h2, h3]
  refine ⟨he, ?_⟩
  intro c hc
  rw [he] at hc
  exact Except.noConfusion hc

/-- Witness for `create_llm_unknown_provider` at provider `"foo"`. -/
theorem create_llm_unknown_provider_witness :
    create_llm ⟨"foo", none, none, none⟩ (fun _ => none)
      = .error ("不支持的 Provider: " ++ "foo") :=
  (create_llm_unknown_provider ⟨"foo", none, none, none⟩ (fun _ => none)
    (by decide) (by decide) (by decide)).1

/-- C9 (amended): `load_config` never sets an explicit output-token
ceiling for the operator (browser) role, and sets the solver role's
explicit ceiling — to 16384 — exactly when the solver's resolved provider
is `openai`; otherwise the solver role has no explicit ceiling either (so
the solver ceiling is *not* larger regardless of provider, refuting the
claim as stated). -/
theorem solver_token_ceiling (env : Env) :
    (load_config env).browser_llm.max_completion_tokens = none
    ∧ ((load_config env).solver_llm.max_completion_tokens = some 16384
        ↔ (load_config env).solver_llm.provider = "openai")
    ∧ ((load_config env).solver_llm.max_completion_tokens = some 16384
        ∨ (load_config env).solver_llm.max_completion_tokens = none) := by
  by_cases h :
      pyLower (getenvD env "SOLVER_PROVIDER" (pyLower (getenvD env "DEFAULT_PROVIDER" "openai")))
        = "openai" <;>
    simp [load_config, h]

/-- C9 counterexample: with `SOLVER_PROVIDER=anthropic` (and nothing else
set) the solver role resolves to provider `anthropic` and gets **no**
output-token ceiling — the same as the operator role — so the solver's
default ceiling is not larger than the operator's for every provider. -/
theorem solver_token_ceiling_counterexample :
    (load_config anthropicSolverEnv).solver_llm.provider = "anthropic"
    ∧ (load_config anthropicSolverEnv).solver_llm.max_completion_tokens = none
    ∧ (load_config anthropicSolverEnv).browser_llm.max_completion_tokens = none :=
  ⟨rfl, rfl, rfl⟩

/-- Merging the fixed head of the extracted content with the `ANSWER: `
head of the result block. -/
theorem answer_head_merge (X : String) :
    "题目答案：\n" ++ ("ANSWER: " ++ X) = "题目答案：\nANSWER: " ++ X := by
  rw [← String.append_assoc]
  rfl

/-- C1 (amended): the tool performs no emptiness validation on the
question.  With empty question text it does not fail: for every question
type, format hint and screenshot outcome it sends the solver client the
system prompt plus a user message whose text embeds the (empty) question,
and returns a normal successful result built from the solver's reply. -/
theorem solve_question_empty_no_validation (qt hint : String)
    (takeShot : Except String (Nat × String)) (s : String) :
    (solve_question ⟨"", qt, hint, false⟩ takeShot (fun _ => .ok s)).map
        (fun o => o.sentMessages)
      = .ok [Message.system SOLVER_SYSTEM_PROMPT,
             Message.user (.plain
               ("请解答以下题目：\n\n" ++ type_hint_of qt ++ format_hint_of hint qt))]
    ∧ exceptOk (solve_question ⟨"", qt, hint, false⟩ takeShot (fun _ => .ok s)) = true :=
  ⟨rfl, rfl⟩

/-- C1 counterexample: at the concrete empty-question request the tool
does not fail with an invalid-argument error and it does invoke the solver
client — it completes with an ordinary success result, having sent the
solver the empty question. -/
theorem solve_question_empty_counterexample :
    solve_question ⟨"", "auto", "", false⟩ (.error "boom") (fun _ => .ok "ANSWER: X")
      = .ok
        { result := { extracted_content := "题目答案：\nANSWER: X",
                      long_term_memory := "题目：... → 答案：X" },
          sentMessages := [Message.system SOLVER_SYSTEM_PROMPT,
                           Message.user (.plain "请解答以下题目：\n\n")],
          logs := ["🧠 Solver 收到题目：...",
                   "✅ Solver 返回答案 (9 字符)", "✅ 解析答案：X"] } := rfl

/-- C2 (amended): for every successful invocation the tool's output text
is `"题目答案：\n"` followed by exactly `"ANSWER: <answer>"` when the
truncated reasoning is empty and exactly
`"ANSWER: <answer>\n\nREASONING: <truncated reasoning>"` otherwise; at the
concrete choice-question scenario the output is `"题目答案：\n"` followed
by exactly the solver's reply (its 31-character reasoning is under the
200-character ceiling and untouched). -/
theorem solve_question_output_shape (p : SolveQuestionParams)
    (takeShot : Except String (Nat × String)) (s : String) :
    ((solve_question p takeShot (fun _ => .ok s)).map
        (fun o => o.result.extracted_content)
      = .ok ("题目答案：\n" ++
          (if truncate_reasoning (parse_solver_response s).2 p.question_type = "" then
             "ANSWER: " ++ (parse_solver_response s).1
           else
             "ANSWER: " ++ (parse_solver_response s).1 ++ "\n\nREASONING: "
               ++ truncate_reasoning (parse_solver_response s).2 p.question_type)))
    ∧ (solve_question
         ⟨"【单选题】2+2=? A.3 B.4 C.5", "choice", "", false⟩ (.error "shot")
         (fun _ => .ok "ANSWER: B\n\nREASONING: 2+2 equals 4 which is option B.")).map
           (fun o => o.result.extracted_content)
        = .ok ("题目答案：\n"
            ++ "ANSWER: B\n\nREASONING: 2+2 equals 4 which is option B.") := by
  constructor
  · have h0 : (solve_question p takeShot (fun _ => .ok s)).map
          (fun o => o.result.extracted_content)
        = .ok ("题目答案：\n" ++ result_content_of (parse_solver_response s).1
            (truncate_reasoning (parse_solver_response s).2 p.question_type)) := rfl
    rw [h0]
    by_cases h : truncate_reasoning (parse_solver_response s).2 p.question_type = "" <;>
      simp [result_content_of, h, String.append_assoc]
  · rfl

/-- C2 counterexample: at the concrete scenario of the claim the tool
output is not the solver reply alone — it is surrounded by the prefix
`"题目答案：\n"`. -/
theorem solve_question_output_prefixed :
    (solve_question ⟨"【单选题】2+2=? A.3 B.4 C.5", "choice", "", false⟩ (.error "shot")
        (fun _ => .ok "ANSWER: B\n\nREASONING: 2+2 equals 4 which is option B.")).map
      (fun o => o.result.extracted_content)
      = .ok "题目答案：\nANSWER: B\n\nREASONING: 2+2 equals 4 which is option B."
    ∧ ("题目答案：\nANSWER: B\n\nREASONING: 2+2 equals 4 which is option B." : String)
        ≠ "ANSWER: B\n\nREASONING: 2+2 equals 4 which is option B." :=
  ⟨rfl, by decide⟩

/-- C5: the answer component of every result produced by the tool is the
full parsed answer region of the raw model output, untouched by the length
policy: the memory line carries it in full, and the extracted content is
`"题目答案：\nANSWER: "` followed by the full answer and then only the
(possibly truncated) reasoning section — only the reasoning is ever
shortened. -/
theorem solve_question_answer_not_truncated (p : SolveQuestionParams)
    (takeShot : Except String (Nat × String)) (s : String) :
    (solve_question p takeShot (fun _ => .ok s)).map (fun o => o.result.long_term_memory)
      = .ok ("题目：" ++ pyTake 100 p.question ++ "... → 答案：" ++ (parse_solver_response s).1)
    ∧ ∃ rest,
        (solve_question p takeShot (fun _ => .ok s)).map
            (fun o => o.result.extracted_content)
          = .ok ("题目答案：\nANSWER: " ++ (parse_solver_response s).1 ++ rest)
        ∧ (rest = "" ∨
           rest = "\n\nREASONING: "
             ++ truncate_reasoning (parse_solver_response s).2 p.question_type) := by
  refine ⟨rfl, ?_⟩
  have h0 : (solve_question p takeShot (fun _ => .ok s)).map
      (fun o => o.result.extracted_content)
      = .ok ("题目答案：\n" ++ result_content_of (parse_solver_response s).1
          (truncate_reasoning (parse_solver_response s).2 p.question_type)) := rfl
  by_cases h : truncate_reasoning (parse_solver_response s).2 p.question_type = ""
  · refine ⟨"", ?_, Or.inl rfl⟩
    rw [h0]
    simp [result_content_of, h, String.append_assoc, answer_head_merge]
  · refine ⟨"\n\nREASONING: "
        ++ truncate_reasoning (parse_solver_response s).2 p.question_type,
      ?_, Or.inr rfl⟩
    rw [h0]
    simp [result_content_of, h, String.append_assoc, answer_head_merge]

/-- C7: when the screenshot acquisition fails on a request with
`include_screenshot = true`, the tool does not fail: it produces exactly
the result and solver messages of the same request without a screenshot —
a plain single-part text user message with no image attached — and, on
success, its logs contain the degradation warning. -/
theorem solve_question_screenshot_degrades (p : SolveQuestionParams) (e : String)
    (solver : List Message → Except String String)
    (h : p.include_screenshot = true) :
    (solve_question p (.error e) solver).map (fun o => (o.result, o.sentMessages))
      = (solve_question { p with include_screenshot := false } (.error e) solver).map
          (fun o => (o.result, o.sentMessages))
    ∧ ∀ o, solve_question p (.error e) solver = .ok o →
        ("⚠️ 截图失败，将仅使用文本解题：" ++ e) ∈ o.logs
        ∧ o.sentMessages
            = [Message.system SOLVER_SYSTEM_PROMPT,
               Message.user (.plain (build_user_text p))] := by
  have hss : screenshot_step p (.error e)
      = (none, ["⚠️ 截图失败，将仅使用文本解题：" ++ e]) := by
    simp [screenshot_step, h]
  have hss2 : screenshot_step { p with include_screenshot := false } (.error e)
      = (none, []) := by
    simp [screenshot_step]
  have hbt : build_user_text { p with include_screenshot := false }
      = build_user_text p := rfl
  constructor
  · simp only [solve_question, hss, hss2, hbt, user_message_of]
    cases hsv : solver [Message.system SOLVER_SYSTEM_PROMPT,
        Message.user (.plain (build_user_text p))] <;> simp [hsv, Except.map]
  · intro o ho
    simp only [solve_question, hss, user_message_of] at ho
    cases hsv : solver [Message.system SOLVER_SYSTEM_PROMPT,
        Message.user (.plain (build_user_text p))] with
    | error er =>
      rw [hsv] at ho
      exact Except.noConfusion ho
    | ok s =>
      rw [hsv] at ho
      have ho2 := Except.ok.inj ho
      subst ho2
      exact ⟨by simp, rfl⟩

/-- Witness for `solve_question_screenshot_degrades` at a concrete request
with a failing screenshot collaborator and a stub solver. -/
theorem solve_question_screenshot_degrades_witness :
    ((solve_question ⟨"q", "auto", "", true⟩ (.error "boom") (fun _ => .ok "ANSWER: A")).map
        (fun o => (o.result, o.sentMessages))
      = (solve_question ⟨"q", "auto", "", false⟩ (.error "boom")
          (fun _ => .ok "ANSWER: A")).map (fun o => (o.result, o.sentMessages)))
    ∧ ("⚠️ 截图失败，将仅使用文本解题：" ++ "boom") ∈
        ["🧠 Solver 收到题目：q...", "⚠️ 截图失败，将仅使用文本解题：boom",
         "✅ Solver 返回答案 (9 字符)", "✅ 解析答案：A"] := by
  have h := solve_question_screenshot_degrades ⟨"q", "auto", "", true⟩ "boom"
    (fun _ => .ok "ANSWER: A") rfl
  refine ⟨h.1, ?_⟩
  exact (h.2
    { result := { extracted_content := "题目答案：\nANSWER: A",
                  long_term_memory := "题目：q... → 答案：A" },
      sentMessages := [Message.system SOLVER_SYSTEM_PROMPT,
                       Message.user (.plain "请解答以下题目：\n\nq")],
      logs := ["🧠 Solver 收到题目：q...", "⚠️ 截图失败，将仅使用文本解题：boom",
               "✅ Solver 返回答案 (9 字符)", "✅ 解析答案：A"] } rfl).1
